import Mathlib

/-!
Shallow embedding of the core of the `devops-dashboard` backend
(`backend/server.js` and the report generator module it imports).

JavaScript numbers are modelled as exact rationals (`ℚ`); the claims under
study involve only small decimal values, where JS doubles behave exactly.
Impure reads (the clock, formatted time strings, and the
`systeminformation` calls) are passed in explicitly as an environment:
a failed or timed-out read is `none`.  `x || 0` on a rational is the
identity (`0 || 0` is `0` in JS as well), so it is dropped where the
operand is a plain rational; where the operand can be `undefined` it is
modelled as `Option` with `getD 0`.
-/

/-- JS `Math.round`: round half towards positive infinity. -/
def jsRound (x : ℚ) : ℤ := ⌊x + 1/2⌋

/-- `Math.round(x * 10) / 10`: round to one decimal place. -/
def round1 (x : ℚ) : ℚ := (jsRound (x * 10) : ℚ) / 10

/-- One entry of `metricsHistory` (the object literal built in
`collectMetrics`, `server.js` lines 120–126). -/
structure Sample where
  time : String
  cpu : ℚ
  memory : ℚ
  disk : ℚ
  timestamp : ℚ
deriving DecidableEq, Repr

/-- One entry of `currentAlerts` (`server.js` lines 198–224). -/
structure Alert where
  id : ℕ
  name : String
  description : String
  severity : String
  timestamp : String
deriving DecidableEq, Repr

/-- Result of `si.currentLoad()` (the two load fields `collectMetrics` reads). -/
structure CpuData where
  currentLoadUser : ℚ
  currentLoadSystem : ℚ
deriving DecidableEq, Repr

/-- Result of `si.mem()` (the two fields `collectMetrics` reads). -/
structure MemData where
  used : ℚ
  total : ℚ
deriving DecidableEq, Repr

/-- One entry of the array returned by `si.fsSize()`. -/
structure DiskDrive where
  mount : String
  use : ℚ
deriving DecidableEq, Repr

/-- The module-level mutable state of `server.js` touched by
`collectMetrics` and `checkAlerts`. -/
structure ServerState where
  metricsHistory : List Sample
  currentAlerts : List Alert
  cachedDiskUse : Option ℚ   -- `cachedDiskData` (`null` or `{ use }`)
  lastDiskCheck : ℚ
deriving DecidableEq, Repr

/-- The impure inputs of one `collectMetrics` invocation: the clock
(`Date.now()`), the formatted time strings, and the three
`systeminformation` reads.  `none` models a read that failed or hit its
timeout (`Promise.race` rejection). -/
structure Env where
  now : ℚ
  timeStr : String      -- `new Date().toLocaleTimeString()`
  isoStr : String       -- `new Date().toISOString()` (used by checkAlerts)
  cpuRead : Option CpuData
  memRead : Option MemData
  diskRead : Option (List DiskDrive)
deriving DecidableEq, Repr

/-- `drive.mount === 'C:' || drive.mount === '/' || drive.mount.includes('C:')`
(`server.js` lines 100–102); `s.includes(sub)` holds iff splitting on the
substring yields more than one piece. -/
def isMainDrive (d : DiskDrive) : Bool :=
  d.mount = "C:" ∨ d.mount = "/" ∨ (d.mount.splitOn "C:").length > 1

/-- `checkAlerts` (`server.js` lines 194–226).  The previous value of
`currentAlerts` is discarded (`currentAlerts = []`) and the new set is
built from the single metric only; `ts` is the clock reading that
`new Date().toISOString()` returns during this evaluation. -/
def checkAlerts (ts : String) (metric : Sample) : List Alert :=
  (if metric.cpu > 80 then
    [{ id := 1, name := "High CPU Usage",
       description := "CPU usage at " ++ toString metric.cpu ++ "%",
       severity := "critical", timestamp := ts }] else []) ++
  (if metric.memory > 85 then
    [{ id := 2, name := "High Memory Usage",
       description := "Memory usage at " ++ toString metric.memory ++ "%",
       severity := "warning", timestamp := ts }] else []) ++
  (if metric.disk > 90 then
    [{ id := 3, name := "Low Disk Space",
       description := "Disk usage at " ++ toString metric.disk ++ "%",
       severity := "critical", timestamp := ts }] else [])

/-- The buffer-maintenance step shared by `collectMetrics`
(`server.js` lines 128–132, cap 20) and `generateReport`
(`reportGenerator.js` lines 155–161, cap 24): `push` followed by a
conditional `shift`. -/
def pushEvict {α : Type} (cap : ℕ) (buf : List α) (x : α) : List α :=
  let b := buf ++ [x]
  if b.length > cap then b.tail else b

/-- The disk section of `collectMetrics` (`server.js` lines 91–110):
the effective `diskUsage` plus the new `cachedDiskData` and
`lastDiskCheck`.  The cached value (`cachedDiskData?.use || 0`, default
`0`) is used unless the cache is absent or older than 30 s, in which case
a fresh read is attempted; a failed/timed-out or empty read keeps the
cached value (the inner `catch` on lines 107–109 only logs). -/
def collectDisk (env : Env) (st : ServerState) : ℚ × Option ℚ × ℚ :=
  let stale : Bool := st.cachedDiskUse.isNone || env.now - st.lastDiskCheck > 30000
  if stale then
    match env.diskRead with
    | some (d :: rest) =>
      -- diskData.find(...) || diskData[0]
      let mainDrive := ((d :: rest).find? isMainDrive).getD d
      (mainDrive.use, some mainDrive.use, env.now)
    | some [] => (st.cachedDiskUse.getD 0, st.cachedDiskUse, st.lastDiskCheck)
    | none => (st.cachedDiskUse.getD 0, st.cachedDiskUse, st.lastDiskCheck)
  else (st.cachedDiskUse.getD 0, st.cachedDiskUse, st.lastDiskCheck)

/-- The metric object `collectMetrics` builds (`server.js` lines 112–126):
CPU and memory percentages clamped to [0,100] (lines 113–118), the disk
percentage taken from the disk section unclamped, all three rounded to
one decimal. -/
def collectSample (env : Env) (cpuData : CpuData) (memData : MemData)
    (st : ServerState) : Sample :=
  let cpuUsage := min 100 (max 0 (cpuData.currentLoadUser + cpuData.currentLoadSystem))
  let memoryUsage := min 100 (max 0 (memData.used / memData.total * 100))
  { time := env.timeStr
    cpu := round1 cpuUsage
    memory := round1 memoryUsage
    disk := round1 (collectDisk env st).1
    timestamp := env.now }

/-- `collectMetrics` (`server.js` lines 81–139).  If the CPU/memory read
(`Promise.race` on lines 86–89) fails or times out, the `catch` on
line 136 only logs and the function returns with the state unchanged.
Otherwise the disk section (lines 91–110) picks the cached value or
re-measures, the metric of `collectSample` is pushed with FIFO eviction
at 20 (lines 128–132), and `checkAlerts` replaces the alert set
(line 134). -/
def collectMetrics (env : Env) (st : ServerState) : ServerState :=
  match env.cpuRead, env.memRead with
  | some cpuData, some memData =>
    let metric := collectSample env cpuData memData st
    { metricsHistory := pushEvict 20 st.metricsHistory metric
      currentAlerts := checkAlerts env.isoStr metric
      cachedDiskUse := (collectDisk env st).2.1
      lastDiskCheck := (collectDisk env st).2.2 }
  | _, _ => st

/-- Per-metric block of `calculateStats` (`reportGenerator.js` lines 180–198),
computed from a non-empty value list `v :: vs`.  `avg`, `max`, `min` are
rounded to one decimal; `current` is the raw last element
(`values[values.length - 1] || 0`, and `|| 0` is the identity on a
rational that is already the last element). -/
structure MetricStats where
  avg : ℚ
  max : ℚ
  min : ℚ
  current : ℚ
deriving DecidableEq, Repr

/-- Builds one `MetricStats` block from the non-empty list `v :: vs`,
mirroring `reduce((a,b) => a+b, 0) / length`, `Math.max(...)`,
`Math.min(...)` and the last element. -/
def statsOf (v : ℚ) (vs : List ℚ) : MetricStats :=
  { avg := round1 (((v :: vs).foldl (· + ·) 0) / ((v :: vs).length : ℚ))
    max := round1 (vs.foldl max v)
    min := round1 (vs.foldl min v)
    current := (v :: vs).getLastD 0 }

/-- Result of `calculateStats`.  On an empty buffer the source returns
`{ cpu: {}, memory: {}, disk: {}, dataPoints: 0 }`; an empty object is
modelled as `none`. -/
structure Stats where
  cpu : Option MetricStats
  memory : Option MetricStats
  disk : Option MetricStats
  dataPoints : ℕ
deriving DecidableEq, Repr

/-- `calculateStats` (`reportGenerator.js` lines 171–201).  Every Sample in
the embedding has all three fields defined, so the
`.filter(v => v !== undefined)` steps are the identity and the three
value lists are the projections of the sample list. -/
def calculateStats (metrics : List Sample) : Stats :=
  match metrics with
  | [] => { cpu := none, memory := none, disk := none, dataPoints := 0 }
  | m :: ms =>
    { cpu := some (statsOf m.cpu (ms.map (·.cpu)))
      memory := some (statsOf m.memory (ms.map (·.memory)))
      disk := some (statsOf m.disk (ms.map (·.disk)))
      dataPoints := (m :: ms).length }

/-- JS `x > c` where `x` may be `undefined` (an absent stats field):
`undefined > c` is `false`. -/
def optGt (x : Option ℚ) (c : ℚ) : Bool :=
  match x with
  | some v => v > c
  | none => false

/-- JS string interpolation of a possibly-`undefined` number. -/
def showOpt (x : Option ℚ) : String :=
  match x with
  | some v => toString v
  | none => "undefined"

/-- `generateSummary` (`reportGenerator.js` lines 204–242): one
classification line per metric from the *average*, plus one alert line. -/
def generateSummary (stats : Stats) (alerts : List Alert) : List String :=
  let cpuAvg := stats.cpu.map (·.avg)
  let cpuMax := stats.cpu.map (·.max)
  let memAvg := stats.memory.map (·.avg)
  let memMax := stats.memory.map (·.max)
  let diskAvg := stats.disk.map (·.avg)
  (if optGt cpuAvg 80 then
    ["🔴 HIGH CPU: Average " ++ showOpt cpuAvg ++ "% (Peak: " ++ showOpt cpuMax ++ "%)"]
   else if optGt cpuAvg 50 then
    ["🟡 MODERATE CPU: Average " ++ showOpt cpuAvg ++ "%"]
   else
    ["🟢 NORMAL CPU: Average " ++ showOpt cpuAvg ++ "%"]) ++
  (if optGt memAvg 85 then
    ["🔴 HIGH MEMORY: Average " ++ showOpt memAvg ++ "% (Peak: " ++ showOpt memMax ++ "%)"]
   else if optGt memAvg 70 then
    ["🟡 MODERATE MEMORY: Average " ++ showOpt memAvg ++ "%"]
   else
    ["🟢 NORMAL MEMORY: Average " ++ showOpt memAvg ++ "%"]) ++
  (if optGt diskAvg 90 then
    ["🔴 HIGH DISK: " ++ showOpt diskAvg ++ "% used"]
   else if optGt diskAvg 80 then
    ["🟡 MODERATE DISK: " ++ showOpt diskAvg ++ "% used"]
   else
    ["🟢 NORMAL DISK: " ++ showOpt diskAvg ++ "% used"]) ++
  (if alerts.length > 0 then
    ["⚠️ " ++ toString alerts.length ++ " ACTIVE ALERTS"]
   else
    ["✅ NO ALERTS"])

/-- One entry of `reportHistory` (the object literal of `generateReport`,
`reportGenerator.js` lines 144–153). -/
structure Report where
  id : ℚ                    -- Date.now()
  timestamp : String        -- now.toISOString()
  reportTime : String       -- now.toLocaleString()
  duration : String
  metrics : Stats
  alerts : ℕ
  alertDetails : List Alert
  summary : List String
deriving DecidableEq, Repr

/-- The impure inputs of one `generateReport` call: the clock and the two
formatted time strings. -/
structure RepEnv where
  now : ℚ
  isoStr : String
  timeStr : String
deriving DecidableEq, Repr

/-- The report object `generateReport` builds from the buffer, the current
alerts and the clock (`reportGenerator.js` lines 136–153); it does not
read `reportHistory`. -/
def reportOf (env : RepEnv) (metricsHistory : List Sample)
    (currentAlerts : List Alert) : Report :=
  let stats := calculateStats metricsHistory
  { id := env.now
    timestamp := env.isoStr
    reportTime := env.timeStr
    duration := "10 minutes"
    metrics := stats
    alerts := currentAlerts.length
    alertDetails := currentAlerts
    summary := generateSummary stats currentAlerts }

/-- `generateReport` (`reportGenerator.js` lines 136–168): build the report,
push it onto `reportHistory` with FIFO eviction at 24, and return it.
`saveReportToFile` is a fire-and-forget file-system side effect with its
own `catch`; it does not touch the in-memory state modelled here. -/
def generateReport (env : RepEnv) (metricsHistory : List Sample)
    (currentAlerts : List Alert) (reportHistory : List Report) :
    Report × List Report :=
  let report := reportOf env metricsHistory currentAlerts
  (report, pushEvict 24 reportHistory report)

/-- `getReports` (`reportGenerator.js` lines 271–273). -/
def getReports (reportHistory : List Report) : List Report :=
  reportHistory

/-- `getLatestReport` (`reportGenerator.js` lines 276–278):
`reportHistory[reportHistory.length - 1] || null`. -/
def getLatestReport (reportHistory : List Report) : Option Report :=
  reportHistory.getLast?

/-- One entry of `serviceStatus` (`server.js` lines 233–247). -/
structure ServiceStatus where
  name : String
  status : String
  details : String
deriving DecidableEq, Repr

/-- `checkServices` (`server.js` lines 229–252): wholesale replacement of
`serviceStatus` by a fixed three-entry list derived from the buffer. -/
def checkServices (metricsHistory : List Sample) : List ServiceStatus :=
  [ { name := "System", status := "healthy", details := "Monitoring active" }
  , { name := "API Server", status := "healthy", details := "Real-time updates" }
  , { name := "Metrics"
    , status := if metricsHistory.length > 0 then "healthy" else "starting"
    , details := toString metricsHistory.length ++ " data points" } ]

lemma pushEvict_eq_drop {α : Type} (cap : ℕ) (buf : List α) (x : α)
    (h : buf.length ≤ cap) :
    pushEvict cap buf x = (buf ++ [x]).drop (buf.length + 1 - cap) := by
  unfold pushEvict
  by_cases hl : (buf ++ [x]).length > cap
  · simp only [List.length_append, List.length_singleton] at hl
    have hb : buf.length = cap := by omega
    have h1 : buf.length + 1 - cap = 1 := by omega
    simp [hl, h1, List.drop_one, List.length_append, hb]
  · simp only [List.length_append, List.length_singleton] at hl
    have h0 : buf.length + 1 - cap = 0 := by omega
    simp [h0, List.length_append]
    omega

lemma pushEvict_length {α : Type} (cap : ℕ) (buf : List α) (x : α)
    (h : buf.length ≤ cap) :
    (pushEvict cap buf x).length = min (buf.length + 1) cap := by
  rw [pushEvict_eq_drop cap buf x h, List.length_drop, List.length_append]
  simp only [List.length_singleton]
  omega

lemma foldl_pushEvict_eq_drop {α : Type} (cap : ℕ) (ss : List α) (buf : List α)
    (h : buf.length ≤ cap) :
    ss.foldl (pushEvict cap) buf = (buf ++ ss).drop (buf.length + ss.length - cap) := by
  induction ss generalizing buf with
  | nil =>
    have h0 : buf.length - cap = 0 := by omega
    simp [h0]
  | cons x t ih =>
    have hlen : (pushEvict cap buf x).length = min (buf.length + 1) cap :=
      pushEvict_length cap buf x h
    have hle : (pushEvict cap buf x).length ≤ cap := by omega
    rw [List.foldl_cons, ih (pushEvict cap buf x) hle, hlen,
        pushEvict_eq_drop cap buf x h]
    have hk : buf.length + 1 - cap ≤ (buf ++ [x]).length := by
      simp only [List.length_append, List.length_singleton]; omega
    rw [← List.drop_append_of_le_length hk, List.drop_drop]
    have hidx : buf.length + 1 - cap + (min (buf.length + 1) cap + t.length - cap)
        = buf.length + (x :: t).length - cap := by
      simp only [List.length_cons]; omega
    rw [hidx, List.append_assoc, List.singleton_append]

/-- C1: starting from any buffer of length at most 20, iterating the
Sampler's append step (push followed by conditional shift,
`server.js` lines 128–132) keeps the buffer length at most 20, and after
at least 20 appends the buffer is exactly the last 20 appended samples in
their original order; moreover `collectMetrics` maintains its history by
exactly this step whenever the CPU/memory read succeeds. -/
theorem C1_buffer_bounded_fifo (buf ss : List Sample) (h : buf.length ≤ 20) :
    (ss.foldl (pushEvict 20) buf).length ≤ 20 ∧
    (20 ≤ ss.length → ss.foldl (pushEvict 20) buf = ss.drop (ss.length - 20)) ∧
    (∀ env st, env.cpuRead.isSome → env.memRead.isSome →
      ∃ s, (collectMetrics env st).metricsHistory = pushEvict 20 st.metricsHistory s) := by
  refine ⟨?_, ?_, ?_⟩
  · rw [foldl_pushEvict_eq_drop 20 ss buf h, List.length_drop, List.length_append]
    omega
  · intro hss
    rw [foldl_pushEvict_eq_drop 20 ss buf h]
    have hidx : buf.length + ss.length - 20 = buf.length + (ss.length - 20) := by omega
    rw [hidx, List.drop_append]
  · intro env st hc hm
    obtain ⟨c, hc⟩ := Option.isSome_iff_exists.mp hc
    obtain ⟨m, hm⟩ := Option.isSome_iff_exists.mp hm
    refine ⟨collectSample env c m st, ?_⟩
    unfold collectMetrics
    rw [hc, hm]

/-- A concrete sample used by witnesses. -/
def sampleA : Sample := ⟨"", 1, 2, 3, 0⟩

/-- Witness for C1 at a concrete buffer and append sequence. -/
theorem C1_buffer_bounded_fifo_witness :
    ([] : List Sample).length ≤ 20 ∧
    (List.replicate 25 sampleA).foldl (pushEvict 20) [] =
      (List.replicate 25 sampleA).drop (25 - 20) := by
  refine ⟨by decide, ?_⟩
  exact (C1_buffer_bounded_fifo [] (List.replicate 25 sampleA)
    (by decide)).2.1 (by decide)

lemma pushEvict_getLast? {α : Type} (cap : ℕ) (buf : List α) (x : α)
    (h : 0 < cap) : (pushEvict cap buf x).getLast? = some x := by
  unfold pushEvict
  by_cases hl : (buf ++ [x]).length > cap
  · simp only [List.length_append, List.length_singleton] at hl
    match buf with
    | [] => simp at hl; omega
    | b :: bs =>
      simp only [List.cons_append, List.tail_cons, if_pos]
      rw [if_pos]
      · simp [List.getLast?_append]
      · simpa using hl
  · rw [if_neg hl]
    simp [List.getLast?_append]

/-- The empty starting state of `server.js` (all in-memory arrays empty,
no disk cache). -/
def stEmpty : ServerState := ⟨[], [], none, 0⟩

/-- An invocation environment in which the CPU/memory read fails (the
`Promise.race` on `server.js` lines 86–89 rejects). -/
def envFail : Env := ⟨0, "", "", none, some ⟨1, 2⟩, none⟩

/-- C2 counterexample: when the CPU/memory read fails, `collectMetrics`
ends in the outer `catch` (`server.js` line 136), which only logs — the
invocation appends no Sample at all, contradicting the claim that a
well-formed fallback Sample is still produced. -/
theorem C2_counterexample_cpu_failure_no_sample :
    envFail.cpuRead = none ∧
    collectMetrics envFail stEmpty = stEmpty ∧
    (collectMetrics envFail stEmpty).metricsHistory = [] :=
  ⟨rfl, rfl, rfl⟩

/-- C2 amended: a disk-read failure is recovered (the cached or fallback
disk value is substituted and a Sample is still appended), and no read
failure propagates an error (the model is total and returns a state);
but when the CPU/memory read fails or times out, the invocation appends
no Sample and leaves the state unchanged. -/
theorem C2_sampler_failure_policy (env : Env) (st : ServerState) :
    (∀ c m, env.cpuRead = some c → env.memRead = some m →
      (collectMetrics env st).metricsHistory.getLast? =
        some (collectSample env c m st)) ∧
    ((env.cpuRead = none ∨ env.memRead = none) → collectMetrics env st = st) := by
  constructor
  · intro c m hc hm
    unfold collectMetrics
    rw [hc, hm]
    exact pushEvict_getLast? 20 st.metricsHistory _ (by norm_num)
  · intro hfail
    unfold collectMetrics
    rcases hfail with hf | hf
    · rw [hf]
    · rw [hf]
      rcases env.cpuRead with _ | c <;> rfl

/-- An invocation environment in which CPU and memory reads succeed but
the disk read fails. -/
def envOkC2 : Env := ⟨0, "", "", some ⟨10, 5⟩, some ⟨1, 2⟩, none⟩

/-- Witness for C2 at concrete environments: a successful CPU/memory read
with a failed disk read still appends a Sample, and a failed CPU read
leaves the state unchanged. -/
theorem C2_sampler_failure_policy_witness :
    (collectMetrics envOkC2 stEmpty).metricsHistory.getLast? =
      some (collectSample envOkC2 ⟨10, 5⟩ ⟨1, 2⟩ stEmpty) ∧
    collectMetrics envFail stEmpty = stEmpty :=
  ⟨(C2_sampler_failure_policy envOkC2 stEmpty).1 ⟨10, 5⟩ ⟨1, 2⟩ rfl rfl,
   (C2_sampler_failure_policy envFail stEmpty).2 (Or.inl rfl)⟩

/-- `Math.round(x * 100) / 100` (`server.js` lines 166–168): round to two
decimal places. -/
def round2 (x : ℚ) : ℚ := (jsRound (x * 100) : ℚ) / 100

/-- One synthetic backdated startup sample built by the loop body of
`initializeData` (`server.js` lines 163–171, success path): `cpuUsage`,
`memoryUsage`, `diskUsage` are the locals computed on lines 151–160 and
`rc`, `rm`, `rd` are the three `Math.random()` draws (each in [0,1)).
No field is clamped. -/
def initSample (now : ℚ) (timeStr : String) (i : ℕ)
    (cpuUsage memoryUsage diskUsage : ℚ) (rc rm rd : ℚ) : Sample :=
  { time := timeStr
    cpu := round2 (cpuUsage + (rc - 1/2) * 5)
    memory := round2 (memoryUsage + (rm - 1/2) * 3)
    disk := round2 (diskUsage + (rd - 1/2) * 2)
    timestamp := now - (9 - (i : ℚ)) * 1000 }

/-- State with an out-of-range cached disk value inside its 30 s
staleness window. -/
def stC3 : ServerState := ⟨[], [], some 150, 0⟩

/-- Environment for the C3 counterexample: CPU/memory reads succeed,
no disk read is attempted (cache is fresh). -/
def envC3 : Env := ⟨1000, "", "", some ⟨10, 10⟩, some ⟨1, 2⟩, none⟩

/-- C3 counterexample: (a) with a cached disk value of 150 inside its
staleness window, `collectMetrics` appends a Sample whose `disk` field is
150 — the disk percentage is never clamped (`server.js` line 124 rounds
but does not clamp); (b) a synthetic startup sample of `initializeData`
with a perfectly in-range CPU reading of 99.9 and a jitter draw of 0.99
has `cpu = 102.35` — the startup loop does not clamp either. -/
theorem C3_counterexample :
    ((collectMetrics envC3 stC3).metricsHistory.map (·.disk) = [150] ∧
      ¬ ((150 : ℚ) ≤ 100)) ∧
    ((initSample 9000 "" 0 (99.9 : ℚ) 50 50 (99/100) (1/2) (1/2)).cpu = 10235/100 ∧
      0 ≤ (99.9 : ℚ) ∧ (99.9 : ℚ) ≤ 100 ∧ ¬ ((10235 : ℚ)/100 ≤ 100)) := by
  refine ⟨⟨?_, by norm_num⟩, ?_, by norm_num, by norm_num, by norm_num⟩
  · have h1 : (collectMetrics envC3 stC3).metricsHistory =
        [collectSample envC3 ⟨10, 10⟩ ⟨1, 2⟩ stC3] := rfl
    rw [h1]
    simp only [List.map_cons, List.map_nil, List.cons.injEq, and_true]
    norm_num [collectSample, collectDisk, envC3, stC3, round1, jsRound]
  · norm_num [initSample, round2, jsRound]

lemma clamp_bounds (t : ℚ) : 0 ≤ min 100 (max 0 t) ∧ min 100 (max 0 t) ≤ 100 :=
  ⟨le_min (by norm_num) (le_max_left 0 t), min_le_left _ _⟩

lemma round1_bounds {x : ℚ} (h0 : 0 ≤ x) (h100 : x ≤ 100) :
    0 ≤ round1 x ∧ round1 x ≤ 100 := by
  unfold round1 jsRound
  constructor
  · apply div_nonneg _ (by norm_num)
    have hx : (0 : ℚ) ≤ x * 10 + 1/2 := by nlinarith
    exact_mod_cast Int.floor_nonneg.mpr hx
  · rw [div_le_iff₀ (by norm_num)]
    have hle : ⌊x * 10 + 1/2⌋ ≤ 1000 := by
      have hmono := Int.floor_le_floor (α := ℚ)
        (show x * 10 + 1/2 ≤ 2001/2 by nlinarith)
      have hval : ⌊(2001/2 : ℚ)⌋ = 1000 := by norm_num
      omega
    calc ((⌊x * 10 + 1/2⌋ : ℤ) : ℚ) ≤ 1000 := by exact_mod_cast hle
    _ = 100 * 10 := by norm_num

/-- C3 amended: every Sample appended by `collectMetrics` has its `cpu`
and `memory` fields within [0,100], for every value (including
out-of-range or fault-injected ones) of the underlying CPU and memory
readings; no such clamping applies to the `disk` field or to the
synthetic startup samples of `initializeData`. -/
theorem C3_collect_cpu_memory_in_range (env : Env) (st : ServerState)
    (c : CpuData) (m : MemData)
    (hc : env.cpuRead = some c) (hm : env.memRead = some m) :
    ∃ s, (collectMetrics env st).metricsHistory.getLast? = some s ∧
      0 ≤ s.cpu ∧ s.cpu ≤ 100 ∧ 0 ≤ s.memory ∧ s.memory ≤ 100 := by
  refine ⟨collectSample env c m st, ?_, ?_, ?_, ?_, ?_⟩
  · unfold collectMetrics
    rw [hc, hm]
    exact pushEvict_getLast? 20 st.metricsHistory _ (by norm_num)
  · exact (round1_bounds (clamp_bounds _).1 (clamp_bounds _).2).1
  · exact (round1_bounds (clamp_bounds _).1 (clamp_bounds _).2).2
  · exact (round1_bounds (clamp_bounds _).1 (clamp_bounds _).2).1
  · exact (round1_bounds (clamp_bounds _).1 (clamp_bounds _).2).2

/-- Witness for C3 at a concrete state: fault-injected CPU loads of
200 + 50 and a memory reading of 150 % still yield in-range `cpu` and
`memory` fields. -/
theorem C3_collect_cpu_memory_in_range_witness :
    ∃ s, (collectMetrics ⟨0, "", "", some ⟨200, 50⟩, some ⟨3, 2⟩, none⟩
        stEmpty).metricsHistory.getLast? = some s ∧
      0 ≤ s.cpu ∧ s.cpu ≤ 100 ∧ 0 ≤ s.memory ∧ s.memory ≤ 100 :=
  C3_collect_cpu_memory_in_range ⟨0, "", "", some ⟨200, 50⟩, some ⟨3, 2⟩, none⟩
    stEmpty ⟨200, 50⟩ ⟨3, 2⟩ rfl rfl

/-- C4: `checkAlerts` raises a severity-`critical` id-1 cpu alert iff
`cpu > 80`, a severity-`warning` id-2 memory alert iff `memory > 85`, and
a severity-`critical` id-3 disk alert iff `disk > 90`; comparisons are
strict (cpu exactly 80 raises nothing, 80.1 raises the critical alert);
the result is the union of the thresholds that fire (one alert per firing
threshold, no others); and `collectMetrics` replaces the previous alert
set wholesale with `checkAlerts` of the new metric, independently of the
previous `currentAlerts`. -/
theorem C4_alert_policy (ts : String) (metric : Sample) :
    ((∃ a ∈ checkAlerts ts metric, a.id = 1 ∧ a.severity = "critical") ↔
      metric.cpu > 80) ∧
    ((∃ a ∈ checkAlerts ts metric, a.id = 2 ∧ a.severity = "warning") ↔
      metric.memory > 85) ∧
    ((∃ a ∈ checkAlerts ts metric, a.id = 3 ∧ a.severity = "critical") ↔
      metric.disk > 90) ∧
    ((checkAlerts ts metric).length =
      (if metric.cpu > 80 then 1 else 0) + (if metric.memory > 85 then 1 else 0) +
      (if metric.disk > 90 then 1 else 0)) ∧
    (checkAlerts ts ⟨"", 80, 0, 0, 0⟩ = []) ∧
    ((checkAlerts ts ⟨"", 80.1, 0, 0, 0⟩).map (fun a => (a.id, a.severity)) =
      [(1, "critical")]) ∧
    (∀ env st c m, env.cpuRead = some c → env.memRead = some m →
      (collectMetrics env st).currentAlerts =
        checkAlerts env.isoStr (collectSample env c m st)) := by
  refine ⟨?_, ?_, ?_, ?_, ?_, ?_, ?_⟩
  · by_cases h1 : metric.cpu > 80 <;>
      by_cases h2 : metric.memory > 85 <;>
      by_cases h3 : metric.disk > 90 <;>
      simp [checkAlerts, h1, h2, h3]
  · by_cases h1 : metric.cpu > 80 <;>
      by_cases h2 : metric.memory > 85 <;>
      by_cases h3 : metric.disk > 90 <;>
      simp [checkAlerts, h1, h2, h3]
  · by_cases h1 : metric.cpu > 80 <;>
      by_cases h2 : metric.memory > 85 <;>
      by_cases h3 : metric.disk > 90 <;>
      simp [checkAlerts, h1, h2, h3]
  · by_cases h1 : metric.cpu > 80 <;>
      by_cases h2 : metric.memory > 85 <;>
      by_cases h3 : metric.disk > 90 <;>
      simp [checkAlerts, h1, h2, h3]
  · have h80 : ¬ ((80 : ℚ) > 80) := by norm_num
    simp [checkAlerts, h80]
  · have h801 : (80.1 : ℚ) > 80 := by norm_num
    simp [checkAlerts, h801]
  · intro env st c m hc hm
    unfold collectMetrics
    rw [hc, hm]

/-- Witness for C4 at a concrete sample firing the cpu and disk alerts
but not the memory alert. -/
theorem C4_alert_policy_witness :
    (∃ a ∈ checkAlerts "t" ⟨"", 90, 50, 95, 0⟩, a.id = 1 ∧ a.severity = "critical") ∧
    (¬ ∃ a ∈ checkAlerts "t" ⟨"", 90, 50, 95, 0⟩, a.id = 2 ∧ a.severity = "warning") ∧
    (∃ a ∈ checkAlerts "t" ⟨"", 90, 50, 95, 0⟩, a.id = 3 ∧ a.severity = "critical") ∧
    (collectMetrics envOkC2 stEmpty).currentAlerts =
      checkAlerts envOkC2.isoStr (collectSample envOkC2 ⟨10, 5⟩ ⟨1, 2⟩ stEmpty) := by
  refine ⟨?_, ?_, ?_, ?_⟩
  · exact ((C4_alert_policy "t" ⟨"", 90, 50, 95, 0⟩).1).mpr (by norm_num)
  · intro hmem
    have h := ((C4_alert_policy "t" ⟨"", 90, 50, 95, 0⟩).2.1).mp hmem
    norm_num at h
  · exact ((C4_alert_policy "t" ⟨"", 90, 50, 95, 0⟩).2.2.1).mpr (by norm_num)
  · exact (C4_alert_policy "t" ⟨"", 90, 50, 95, 0⟩).2.2.2.2.2.2
      envOkC2 stEmpty ⟨10, 5⟩ ⟨1, 2⟩ rfl rfl

/-- A sample whose cpu reading fires the critical alert. -/
def sampleHot : Sample := ⟨"", 90, 0, 0, 0⟩

/-- C5 counterexample: `checkAlerts` stamps each alert with
`new Date().toISOString()` read at evaluation time; two evaluations of
the identical Sample at distinct clock instants yield alert sets that
differ in the `timestamp` field, so they are not equal in every field. -/
theorem C5_counterexample :
    checkAlerts "2024-01-01T00:00:00.000Z" sampleHot ≠
      checkAlerts "2024-01-01T00:00:01.000Z" sampleHot := by
  have h90 : (90 : ℚ) > 80 := by norm_num
  have h0 : ¬ ((0 : ℚ) > 85) := by norm_num
  have h0d : ¬ ((0 : ℚ) > 90) := by norm_num
  simp [checkAlerts, sampleHot, h90, h0, h0d]

/-- An alert without its `timestamp` field. -/
def eraseTimestamp (a : Alert) : ℕ × String × String × String :=
  (a.id, a.name, a.description, a.severity)

/-- C5 amended: `checkAlerts` is deterministic given the evaluation-time
clock reading — evaluating the identical Sample at the same clock instant
yields identical output in every field, and two evaluations at any two
instants agree on every field except `timestamp`, which is exactly the
clock reading of the respective evaluation. -/
theorem C5_deterministic_given_clock (ts1 ts2 : String) (metric : Sample) :
    (ts1 = ts2 → checkAlerts ts1 metric = checkAlerts ts2 metric) ∧
    (checkAlerts ts1 metric).map eraseTimestamp =
      (checkAlerts ts2 metric).map eraseTimestamp ∧
    (∀ a ∈ checkAlerts ts1 metric, a.timestamp = ts1) := by
  refine ⟨fun h => by rw [h], ?_, ?_⟩
  · by_cases h1 : metric.cpu > 80 <;>
      by_cases h2 : metric.memory > 85 <;>
      by_cases h3 : metric.disk > 90 <;>
      simp [checkAlerts, eraseTimestamp, h1, h2, h3]
  · intro a ha
    by_cases h1 : metric.cpu > 80 <;>
      by_cases h2 : metric.memory > 85 <;>
      by_cases h3 : metric.disk > 90 <;>
      simp [checkAlerts, h1, h2, h3] at ha <;>
      rcases ha with h | h | h <;> simp_all
  
/-- Witness for C5 at a concrete sample and pair of clock readings. -/
theorem C5_deterministic_given_clock_witness :
    checkAlerts "t0" sampleHot = checkAlerts "t0" sampleHot ∧
    (checkAlerts "t0" sampleHot).map eraseTimestamp =
      (checkAlerts "t1" sampleHot).map eraseTimestamp :=
  ⟨(C5_deterministic_given_clock "t0" "t0" sampleHot).1 rfl,
   (C5_deterministic_given_clock "t0" "t1" sampleHot).2.1⟩

lemma foldl_max_spec (v : ℚ) (vs : List ℚ) :
    vs.foldl max v ∈ v :: vs ∧ ∀ x ∈ v :: vs, x ≤ vs.foldl max v := by
  induction vs generalizing v with
  | nil => simp
  | cons w t ih =>
    have h := ih (max v w)
    rw [List.foldl_cons]
    constructor
    · rcases List.mem_cons.mp h.1 with hm | hm
      · rcases max_choice v w with hc | hc
        · rw [hm, hc]; exact List.mem_cons_self _ _
        · rw [hm, hc]; exact List.mem_cons_of_mem _ (List.mem_cons_self _ _)
      · exact List.mem_cons_of_mem _ (List.mem_cons_of_mem _ hm)
    · intro x hx
      rcases List.mem_cons.mp hx with hx | hx
      · subst hx
        exact le_trans (le_max_left x w) (h.2 _ (List.mem_cons_self _ _))
      · rcases List.mem_cons.mp hx with hx' | hx'
        · subst hx'
          exact le_trans (le_max_right v x) (h.2 _ (List.mem_cons_self _ _))
        · exact h.2 x (List.mem_cons_of_mem _ hx')

lemma foldl_min_spec (v : ℚ) (vs : List ℚ) :
    vs.foldl min v ∈ v :: vs ∧ ∀ x ∈ v :: vs, vs.foldl min v ≤ x := by
  induction vs generalizing v with
  | nil => simp
  | cons w t ih =>
    have h := ih (min v w)
    rw [List.foldl_cons]
    constructor
    · rcases List.mem_cons.mp h.1 with hm | hm
      · rcases min_choice v w with hc | hc
        · rw [hm, hc]; exact List.mem_cons_self _ _
        · rw [hm, hc]; exact List.mem_cons_of_mem _ (List.mem_cons_self _ _)
      · exact List.mem_cons_of_mem _ (List.mem_cons_of_mem _ hm)
    · intro x hx
      rcases List.mem_cons.mp hx with hx | hx
      · subst hx
        exact le_trans (h.2 _ (List.mem_cons_self _ _)) (min_le_left x w)
      · rcases List.mem_cons.mp hx with hx' | hx'
        · subst hx'
          exact le_trans (h.2 _ (List.mem_cons_self _ _)) (min_le_right v x)
        · exact h.2 x (List.mem_cons_of_mem _ hx')

/-- A sample whose cpu value has two decimal places (as the startup
samples of `initializeData` can produce). -/
def sampleQ : Sample := ⟨"", 41/4, 0, 0, 0⟩

/-- C6 counterexample: for the buffer `[sampleQ]` with cpu 10.25, the
claim predicts `current = 10.3` (the last value rounded to one decimal),
but `calculateStats` returns the raw last value 10.25 — `current` is the
only one of the four stats that is not rounded
(`reportGenerator.js` line 185). -/
theorem C6_counterexample :
    ((calculateStats [sampleQ]).cpu.map (·.current)) = some (41/4) ∧
    ((calculateStats [sampleQ]).cpu.map (·.current)) ≠ some (round1 (41/4)) ∧
    round1 (41/4) = 103/10 := by
  have hval : (calculateStats [sampleQ]).cpu.map (·.current) = some (41/4) := by
    simp [calculateStats, statsOf, sampleQ]
  refine ⟨hval, ?_, by norm_num [round1, jsRound]⟩
  rw [hval]
  intro hcon
  have hinj := Option.some.inj hcon
  norm_num [round1, jsRound] at hinj

lemma stats_block_spec (f : Sample → ℚ) (m : Sample) (ms : List Sample) :
    ((statsOf (f m) (ms.map f)).avg =
      round1 ((((m :: ms).map f).sum) / (((m :: ms).length : ℕ) : ℚ))) ∧
    (∃ M ∈ (m :: ms).map f,
      (∀ v ∈ (m :: ms).map f, v ≤ M) ∧ (statsOf (f m) (ms.map f)).max = round1 M) ∧
    (∃ mu ∈ (m :: ms).map f,
      (∀ v ∈ (m :: ms).map f, mu ≤ v) ∧ (statsOf (f m) (ms.map f)).min = round1 mu) ∧
    (∃ sl, (m :: ms).getLast? = some sl ∧ (statsOf (f m) (ms.map f)).current = f sl) := by
  refine ⟨?_, ?_, ?_, ?_⟩
  · simp [statsOf, List.sum_eq_foldl]
  · exact ⟨(ms.map f).foldl max (f m),
      by simpa using (foldl_max_spec (f m) (ms.map f)).1,
      fun v hv => (foldl_max_spec (f m) (ms.map f)).2 v (by simpa using hv),
      rfl⟩
  · exact ⟨(ms.map f).foldl min (f m),
      by simpa using (foldl_min_spec (f m) (ms.map f)).1,
      fun v hv => (foldl_min_spec (f m) (ms.map f)).2 v (by simpa using hv),
      rfl⟩
  · have hs : ((m :: ms).getLast?).isSome := by
      rw [List.getLast?_isSome]; exact List.cons_ne_nil m ms
    obtain ⟨sl, hsl⟩ := Option.isSome_iff_exists.mp hs
    refine ⟨sl, hsl, ?_⟩
    have hmap : ((m :: ms).map f).getLast? = some (f sl) := by
      rw [List.getLast?_map, hsl]; rfl
    show ((m :: ms).map f).getLastD 0 = f sl
    rw [List.getLastD_eq_getLast?, hmap]
    rfl

/-- C6 amended: for every non-empty buffer, each of the per-metric stats
blocks for cpu, memory and disk is `avg` = the arithmetic mean rounded to
one decimal, `max` = the maximum rounded to one decimal, `min` = the
minimum rounded to one decimal, and `current` = the most recent (last)
sample's raw value for that metric, not rounded; in particular for cpu
values [10, 20, 30]: avg = 20.0, max = 30, min = 10, current = 30. -/
theorem C6_stats_characterization (m : Sample) (ms : List Sample) :
    (∃ st, (calculateStats (m :: ms)).cpu = some st ∧
      st.avg = round1 ((((m :: ms).map (·.cpu)).sum) / (((m :: ms).length : ℕ) : ℚ)) ∧
      (∃ M ∈ (m :: ms).map (·.cpu),
        (∀ v ∈ (m :: ms).map (·.cpu), v ≤ M) ∧ st.max = round1 M) ∧
      (∃ mu ∈ (m :: ms).map (·.cpu),
        (∀ v ∈ (m :: ms).map (·.cpu), mu ≤ v) ∧ st.min = round1 mu) ∧
      (∃ sl, (m :: ms).getLast? = some sl ∧ st.current = sl.cpu)) ∧
    (∃ st, (calculateStats (m :: ms)).memory = some st ∧
      st.avg = round1 ((((m :: ms).map (·.memory)).sum) / (((m :: ms).length : ℕ) : ℚ)) ∧
      (∃ M ∈ (m :: ms).map (·.memory),
        (∀ v ∈ (m :: ms).map (·.memory), v ≤ M) ∧ st.max = round1 M) ∧
      (∃ mu ∈ (m :: ms).map (·.memory),
        (∀ v ∈ (m :: ms).map (·.memory), mu ≤ v) ∧ st.min = round1 mu) ∧
      (∃ sl, (m :: ms).getLast? = some sl ∧ st.current = sl.memory)) ∧
    (∃ st, (calculateStats (m :: ms)).disk = some st ∧
      st.avg = round1 ((((m :: ms).map (·.disk)).sum) / (((m :: ms).length : ℕ) : ℚ)) ∧
      (∃ M ∈ (m :: ms).map (·.disk),
        (∀ v ∈ (m :: ms).map (·.disk), v ≤ M) ∧ st.max = round1 M) ∧
      (∃ mu ∈ (m :: ms).map (·.disk),
        (∀ v ∈ (m :: ms).map (·.disk), mu ≤ v) ∧ st.min = round1 mu) ∧
      (∃ sl, (m :: ms).getLast? = some sl ∧ st.current = sl.disk)) ∧
    (calculateStats [⟨"", 10, 0, 0, 0⟩, ⟨"", 20, 0, 0, 0⟩, ⟨"", 30, 0, 0, 0⟩]).cpu =
      some ⟨20, 30, 10, 30⟩ := by
  refine ⟨?_, ?_, ?_, ?_⟩
  · obtain ⟨h1, h2, h3, h4⟩ := stats_block_spec (fun s => s.cpu) m ms
    refine ⟨statsOf m.cpu (ms.map (fun s => s.cpu)), ?_, ?_, ?_, ?_, ?_⟩
    · rfl
    · exact h1
    · exact h2
    · exact h3
    · exact h4
  · obtain ⟨h1, h2, h3, h4⟩ := stats_block_spec (fun s => s.memory) m ms
    refine ⟨statsOf m.memory (ms.map (fun s => s.memory)), ?_, ?_, ?_, ?_, ?_⟩
    · rfl
    · exact h1
    · exact h2
    · exact h3
    · exact h4
  · obtain ⟨h1, h2, h3, h4⟩ := stats_block_spec (fun s => s.disk) m ms
    refine ⟨statsOf m.disk (ms.map (fun s => s.disk)), ?_, ?_, ?_, ?_, ?_⟩
    · rfl
    · exact h1
    · exact h2
    · exact h3
    · exact h4
  · have hmax : ([20, 30] : List ℚ).foldl max 10 = 30 := by
      norm_num [max_def]
    have hmin : ([20, 30] : List ℚ).foldl min 10 = 10 := by
      norm_num [min_def]
    simp only [calculateStats, List.map_cons, List.map_nil, statsOf,
      Option.some.injEq, MetricStats.mk.injEq]
    rw [hmax, hmin]
    refine ⟨?_, ?_, ?_, ?_⟩ <;> norm_num [round1, jsRound, List.getLastD]

/-- C7: on an empty buffer, `calculateStats` returns the empty/zero stats
structure with a data-point count of 0 (the explicit guard on
`reportGenerator.js` lines 172–174 avoids the division by zero), and
`generateReport` still completes, returning a well-formed Report carrying
those empty stats and a four-line summary. -/
theorem C7_empty_buffer_report (env : RepEnv) (alerts : List Alert)
    (hist : List Report) :
    calculateStats [] = ⟨none, none, none, 0⟩ ∧
    (generateReport env [] alerts hist).1.metrics = ⟨none, none, none, 0⟩ ∧
    ((generateReport env [] alerts hist).1.summary).length = 4 ∧
    (generateReport env [] alerts hist).1.metrics.dataPoints = 0 := by
  refine ⟨rfl, rfl, ?_, rfl⟩
  show (generateSummary (calculateStats []) alerts).length = 4
  by_cases h : alerts.length > 0 <;>
    simp [generateSummary, calculateStats, optGt, h]

/-- C8: for every sequence of `generateReport` calls starting from a
report history of length at most 24, the history length never exceeds 24,
and after at least 24 calls the history is exactly the reports of the
last 24 calls in generation order (FIFO eviction of the oldest,
`reportGenerator.js` lines 155–161). -/
theorem C8_report_history_bounded (hist : List Report)
    (calls : List (RepEnv × List Sample × List Alert)) (h : hist.length ≤ 24) :
    (calls.foldl (fun hs c => (generateReport c.1 c.2.1 c.2.2 hs).2) hist).length ≤ 24 ∧
    (24 ≤ calls.length →
      calls.foldl (fun hs c => (generateReport c.1 c.2.1 c.2.2 hs).2) hist =
        (calls.map (fun c => reportOf c.1 c.2.1 c.2.2)).drop (calls.length - 24)) := by
  have hfold : calls.foldl (fun hs c => (generateReport c.1 c.2.1 c.2.2 hs).2) hist =
      (calls.map (fun c => reportOf c.1 c.2.1 c.2.2)).foldl (pushEvict 24) hist := by
    rw [List.foldl_map]
    rfl
  have hlen : (calls.map (fun c => reportOf c.1 c.2.1 c.2.2)).length = calls.length :=
    List.length_map _ _
  constructor
  · rw [hfold, foldl_pushEvict_eq_drop 24 _ _ h, List.length_drop, List.length_append]
    omega
  · intro hc
    rw [hfold, foldl_pushEvict_eq_drop 24 _ _ h]
    have hidx : hist.length + (calls.map (fun c => reportOf c.1 c.2.1 c.2.2)).length - 24 =
        hist.length + ((calls.map (fun c => reportOf c.1 c.2.1 c.2.2)).length - 24) := by
      rw [hlen]; omega
    rw [hidx, List.drop_append, hlen]

/-- A concrete report-generation environment used by witnesses. -/
def repEnvA : RepEnv := ⟨0, "", ""⟩

/-- Witness for C8 at a concrete history and call sequence. -/
theorem C8_report_history_bounded_witness :
    ((List.replicate 25 (repEnvA, ([] : List Sample), ([] : List Alert))).foldl
        (fun hs c => (generateReport c.1 c.2.1 c.2.2 hs).2) []).length ≤ 24 :=
  (C8_report_history_bounded [] _ (by decide)).1

/-- C9: for every prior report history and every buffer/alert state,
`generateReport` (the `POST /api/reports/generate` handler,
`server.js` lines 344–347) followed immediately by `getLatestReport`
(`GET /api/reports/latest`) returns exactly the just-generated report,
whose id is the generation-time clock reading. -/
theorem C9_generate_then_latest (env : RepEnv) (ms : List Sample)
    (alerts : List Alert) (hist : List Report) :
    getLatestReport (generateReport env ms alerts hist).2 =
      some (generateReport env ms alerts hist).1 ∧
    (generateReport env ms alerts hist).1.id = env.now := by
  constructor
  · show (pushEvict 24 hist (reportOf env ms alerts)).getLast? = _
    exact pushEvict_getLast? 24 hist _ (by norm_num)
  · rfl

/-- C10: `checkServices` replaces the service list with exactly three
entries named System, API Server and Metrics in that order; System and
API Server are always healthy; Metrics is `starting` iff the buffer is
empty and `healthy` otherwise, with its details reporting the current
number of buffered data points. -/
theorem C10_service_status (hist : List Sample) :
    (checkServices hist).map (fun e => e.name) = ["System", "API Server", "Metrics"] ∧
    (checkServices hist).length = 3 ∧
    ((checkServices hist)[0]?).map (fun e => e.status) = some "healthy" ∧
    ((checkServices hist)[1]?).map (fun e => e.status) = some "healthy" ∧
    ((checkServices hist)[2]?).map (fun e => e.status) =
      some (if hist.length = 0 then "starting" else "healthy") ∧
    ((checkServices hist)[2]?).map (fun e => e.details) =
      some (toString hist.length ++ " data points") := by
  refine ⟨rfl, rfl, rfl, rfl, ?_, rfl⟩
  rcases Nat.eq_zero_or_pos hist.length with h | h
  · simp [checkServices, h]
  · have hne : hist.length ≠ 0 := by omega
    simp [checkServices, h, hne]

/-- A concrete three-sample buffer exercising all three metric blocks. -/
def mB1 : Sample := ⟨"", 10, 40, 70, 0⟩

/-- Second sample of the concrete buffer. -/
def mB2 : Sample := ⟨"", 20, 50, 80, 0⟩

/-- Third (most recent) sample of the concrete buffer. -/
def mB3 : Sample := ⟨"", 30, 60, 90, 0⟩

/-- Witness for C6: the cpu block at the concrete [10, 20, 30] buffer,
and the memory and disk blocks at a concrete buffer, where the `current`
values are the last sample's raw memory and disk readings. -/
theorem C6_stats_characterization_witness :
    (calculateStats [⟨"", 10, 0, 0, 0⟩, ⟨"", 20, 0, 0, 0⟩, ⟨"", 30, 0, 0, 0⟩]).cpu =
      some ⟨20, 30, 10, 30⟩ ∧
    (∃ st, (calculateStats [mB1, mB2, mB3]).memory = some st ∧ st.current = 60) ∧
    (∃ st, (calculateStats [mB1, mB2, mB3]).disk = some st ∧ st.current = 90) := by
  refine ⟨(C6_stats_characterization mB1 [mB2, mB3]).2.2.2, ?_, ?_⟩
  · obtain ⟨st, hst, havg, hM, hmu, sl, hsl, hcur⟩ :=
      (C6_stats_characterization mB1 [mB2, mB3]).2.1
    have hsl3 : ([mB1, mB2, mB3] : List Sample).getLast? = some mB3 := rfl
    have heq : sl = mB3 := Option.some.inj (hsl ▸ hsl3)
    exact ⟨st, hst, by rw [hcur, heq]; rfl⟩
  · obtain ⟨st, hst, havg, hM, hmu, sl, hsl, hcur⟩ :=
      (C6_stats_characterization mB1 [mB2, mB3]).2.2.1
    have hsl3 : ([mB1, mB2, mB3] : List Sample).getLast? = some mB3 := rfl
    have heq : sl = mB3 := Option.some.inj (hsl ▸ hsl3)
    exact ⟨st, hst, by rw [hcur, heq]; rfl⟩

/-- Witness for C7 at a concrete environment with no alerts and no prior
reports. -/
theorem C7_empty_buffer_report_witness :
    (generateReport repEnvA [] [] []).1.metrics = ⟨none, none, none, 0⟩ ∧
    ((generateReport repEnvA [] [] []).1.summary).length = 4 :=
  ⟨(C7_empty_buffer_report repEnvA [] []).2.1,
   (C7_empty_buffer_report repEnvA [] []).2.2.1⟩

/-- Witness for C9 at a concrete environment and empty prior state. -/
theorem C9_generate_then_latest_witness :
    getLatestReport (generateReport repEnvA [] [] []).2 =
      some (generateReport repEnvA [] [] []).1 :=
  (C9_generate_then_latest repEnvA [] [] []).1

/-- Witness for C10 at the empty buffer. -/
theorem C10_service_status_witness :
    (checkServices ([] : List Sample)).map (fun e => e.name) =
      ["System", "API Server", "Metrics"] ∧
    ((checkServices ([] : List Sample))[2]?).map (fun e => e.status) =
      some (if ([] : List Sample).length = 0 then "starting" else "healthy") :=
  ⟨(C10_service_status []).1, (C10_service_status []).2.2.2.2.1⟩
